import Mathlib

/-!
Verification development for the kbd-informer GNOME Shell extension
(`extension.js` together with its preferences UI `prefs.js`).

The JavaScript sources are shallowly embedded: modifier bitmasks become
`Nat` with `&&&`, the nullable `previousState` field becomes `Option Nat`,
JavaScript arrays with holes become `List (Option _)`, the `try`/`catch`
around the OSD call becomes an `Except`-valued computation, and UI side
effects (panel label text, OSD show calls, console logs) are returned as
explicit data.
-/

namespace KbdInformer

/-- `GLib.SOURCE_CONTINUE`, the value a GLib timeout callback returns to
keep the timer running. -/
def SOURCE_CONTINUE : Bool := true

/-- `GLib.SOURCE_REMOVE`, returned to cancel the timer. -/
def SOURCE_REMOVE : Bool := false

/-- `LOG_TAG` from `extension.js`. -/
def LOG_TAG : String := "KMS-Ext:"

namespace MODIFIER_MASKS

/-- `Clutter.ModifierType.SHIFT_MASK` (X11 `ShiftMask`, bit 0). -/
def SHIFT : Nat := 1

/-- `Clutter.ModifierType.LOCK_MASK` (X11 `LockMask`, bit 1): Caps Lock. -/
def LOCK : Nat := 2

/-- `Clutter.ModifierType.CONTROL_MASK` (X11 `ControlMask`, bit 2). -/
def CONTROL : Nat := 4

/-- `Clutter.ModifierType.MOD1_MASK` (bit 3): Alt. -/
def MOD1 : Nat := 8

/-- `Clutter.ModifierType.MOD2_MASK` (bit 4): Num Lock. -/
def MOD2 : Nat := 16

/-- `Clutter.ModifierType.MOD3_MASK` (bit 5): Scroll Lock. -/
def MOD3 : Nat := 32

/-- `Clutter.ModifierType.MOD4_MASK` (bit 6): Super. -/
def MOD4 : Nat := 64

/-- `Clutter.ModifierType.MOD5_MASK` (bit 7): AltGr. -/
def MOD5 : Nat := 128

end MODIFIER_MASKS

/-- The `ModifierStateTracker` object state: `currentState` is a modifier
bitmask (a JavaScript number, initially `0`), `previousState` is a number
or `null` (`none`). -/
structure ModifierStateTracker where
  currentState : Nat
  previousState : Option Nat
deriving Repr, DecidableEq

/-- `ModifierStateTracker.reset`: `currentState = 0`, `previousState = null`. -/
def ModifierStateTracker.reset : ModifierStateTracker :=
  { currentState := 0, previousState := none }

/-- `ModifierStateTracker.updateState(newState)`: shifts `currentState`
into `previousState` and stores the new bitmask. -/
def ModifierStateTracker.updateState (t : ModifierStateTracker) (newState : Nat) :
    ModifierStateTracker :=
  { currentState := newState, previousState := some t.currentState }

/-- `ModifierStateTracker.hasStateChanged()`:
`this.currentState !== this.previousState`.  A number is never strictly
equal to `null`, so a `none` previous state always counts as changed. -/
def ModifierStateTracker.hasStateChanged (t : ModifierStateTracker) : Bool :=
  t.previousState != some t.currentState

/-- `ModifierStateTracker.isModifierActive(mask)`:
`(this.currentState & mask) !== 0`. -/
def ModifierStateTracker.isModifierActive (t : ModifierStateTracker) (mask : Nat) : Bool :=
  t.currentState &&& mask != 0

/-- The `{ wasActive, isActive }` record returned by
`getModifierChangeInfo`. -/
structure ChangeInfo where
  wasActive : Bool
  isActive : Bool
deriving Repr, DecidableEq

/-- `ModifierStateTracker.getModifierChangeInfo(mask)`: `null` when there
is no previous state or the masked bit did not change, otherwise the
old/new activity pair. -/
def ModifierStateTracker.getModifierChangeInfo (t : ModifierStateTracker) (mask : Nat) :
    Option ChangeInfo :=
  match t.previousState with
  | none => none
  | some prev =>
    let wasActive : Bool := prev &&& mask != 0
    let isActive : Bool := t.currentState &&& mask != 0
    if wasActive != isActive then some { wasActive := wasActive, isActive := isActive }
    else none

/-- The extension-side `SettingsManager` state: `settings` is the GSettings
object (or `null` before `initialize`/after `destroy`), abstracted as the
`get_string` lookup; `modifiers` is `this.symbols.modifiers`. -/
structure SettingsManager where
  settings : Option (String → String)
  modifiers : List (Nat × String)

/-- `SettingsManager.loadSettings()`: with a `null` settings object it only
warns and returns; otherwise it rebuilds the fixed eight-entry
mask-to-symbol list from the stored strings. -/
def SettingsManager.loadSettings (m : SettingsManager) : SettingsManager :=
  match m.settings with
  | none => m
  | some getString =>
    { m with modifiers := [
        (MODIFIER_MASKS.SHIFT, getString "shift-symbol"),
        (MODIFIER_MASKS.LOCK, getString "caps-symbol"),
        (MODIFIER_MASKS.CONTROL, getString "control-symbol"),
        (MODIFIER_MASKS.MOD1, getString "alt-symbol"),
        (MODIFIER_MASKS.MOD2, getString "num-symbol"),
        (MODIFIER_MASKS.MOD3, getString "scroll-symbol"),
        (MODIFIER_MASKS.MOD4, getString "super-symbol"),
        (MODIFIER_MASKS.MOD5, getString "altgr-symbol")] }

/-- One call of `ModifiersOSD.show(title, status)`: the OSD's title label
gets `title` and its status label gets `status`. -/
structure OsdEvent where
  title : String
  status : String
deriving Repr, DecidableEq

/-- The outcome of the host-side `ModifiersOSDManager.show` call for a
given event: it either succeeds or throws a JavaScript exception, which we
abstract as its message string. -/
def OsdShowOutcome : Type := OsdEvent → Except String Unit

/-- `_showNotification(title, message)`: wraps `this._osdManager.show` in
`try`/`catch`; a thrown exception is logged with `console.error` and the
function returns normally either way.  The result carries the attempted
OSD show event and the emitted log lines. -/
def showNotification (outcome : OsdShowOutcome) (title message : String) :
    Except String (List OsdEvent × List String) :=
  match outcome { title := title, status := message } with
  | Except.ok _ => Except.ok ([{ title := title, status := message }], [])
  | Except.error e =>
    Except.ok ([{ title := title, status := message }],
      [LOG_TAG ++ " Error showing OSD notification: " ++ e])

/-- One `if (change) { ... _showNotification(message, name) }` block of
`_handleModifierNotifications`, for the given lock mask and status name. -/
def notifyIfChanged (outcome : OsdShowOutcome) (t : ModifierStateTracker)
    (mask : Nat) (name : String) : Except String (List OsdEvent × List String) :=
  match t.getModifierChangeInfo mask with
  | some change => showNotification outcome (if change.isActive then "On" else "Off") name
  | none => Except.ok ([], [])

/-- `_handleModifierNotifications()`: skips everything when
`previousState === null`, otherwise runs the Caps (LOCK), Num (MOD2) and
Scroll (MOD3) blocks in order. -/
def handleModifierNotifications (outcome : OsdShowOutcome) (t : ModifierStateTracker) :
    Except String (List OsdEvent × List String) :=
  if t.previousState = none then Except.ok ([], [])
  else
    match notifyIfChanged outcome t MODIFIER_MASKS.LOCK "Caps" with
    | Except.error e => Except.error e
    | Except.ok r1 =>
      match notifyIfChanged outcome t MODIFIER_MASKS.MOD2 "Num" with
      | Except.error e => Except.error e
      | Except.ok r2 =>
        match notifyIfChanged outcome t MODIFIER_MASKS.MOD3 "Scroll" with
        | Except.error e => Except.error e
        | Except.ok r3 => Except.ok (r1.1 ++ r2.1 ++ r3.1, r1.2 ++ r2.2 ++ r3.2)

/-- `_updatePanelIndicator()`: pushes the symbol of every active modifier
of `symbols.modifiers` into `activeModifiers`, then joins with `' '` and
writes the result to the panel label. -/
def updatePanelIndicator (symbols : List (Nat × String)) (t : ModifierStateTracker) : String :=
  let activeModifiers :=
    symbols.foldl (fun acc p => if t.isModifierActive p.1 then acc ++ [p.2] else acc) []
  String.intercalate " " activeModifiers

/-- The observable result of one `_onUpdate` tick: the tracker afterwards,
the panel label text afterwards, the OSD show calls made, the log lines
emitted, and the value returned to GLib. -/
structure UpdateResult where
  stateTracker : ModifierStateTracker
  panelText : String
  osdShown : List OsdEvent
  logs : List String
  ret : Bool
deriving Repr, DecidableEq

/-- `_onUpdate()`: polls the modifier bitmask (`currentState`), updates the
tracker, returns early (leaving the panel text untouched and showing no
OSD) when the state did not change, and otherwise runs
`_handleModifierNotifications` followed by `_updatePanelIndicator`.
`panelText` is the panel label text before the tick. -/
def onUpdate (outcome : OsdShowOutcome) (symbols : List (Nat × String))
    (panelText : String) (t : ModifierStateTracker) (currentState : Nat) :
    Except String UpdateResult :=
  let t2 := t.updateState currentState
  if !t2.hasStateChanged then
    Except.ok { stateTracker := t2, panelText := panelText, osdShown := [], logs := [],
                ret := SOURCE_CONTINUE }
  else
    match handleModifierNotifications outcome t2 with
    | Except.error e => Except.error e
    | Except.ok r =>
      Except.ok { stateTracker := t2, panelText := updatePanelIndicator symbols t2,
                  osdShown := r.1, logs := r.2, ret := SOURCE_CONTINUE }

/-- Stated from the spec sentence: the single OSD expected for one lock
key, shown exactly when the masked bit differs between the previously
recorded bitmask and the newly polled one, titled `On`/`Off` by the new
bit, with the lock key's name as status. -/
def specLockOsd (prev new : Nat) (mask : Nat) (name : String) : List OsdEvent :=
  if (prev &&& mask != 0) != (new &&& mask != 0) then
    [{ title := if new &&& mask != 0 then "On" else "Off", status := name }]
  else []

/-- Stated from the spec sentence: all OSDs expected for one poll cycle,
one per toggled lock key (Caps, Num, Scroll), and none for any other
modifier bit. -/
def specLockOsds (prev new : Nat) : List OsdEvent :=
  specLockOsd prev new MODIFIER_MASKS.LOCK "Caps" ++
    specLockOsd prev new MODIFIER_MASKS.MOD2 "Num" ++
    specLockOsd prev new MODIFIER_MASKS.MOD3 "Scroll"

/-- Stated from the spec sentence: the panel text expected after a render,
the symbols of exactly the entries whose mask is active in `state`, in
mapping order, joined with single spaces. -/
def specPanelText (symbols : List (Nat × String)) (state : Nat) : String :=
  String.intercalate " " ((symbols.filter (fun p => state &&& p.1 != 0)).map Prod.snd)

/-- One `ModifiersOSD` actor, identified by the monitor index it was
constructed for (`new ModifiersOSD(i)`). -/
structure ModifiersOSD where
  monitorIndex : Nat
deriving Repr, DecidableEq

/-- JavaScript array element write `a[i] = v`: in bounds it overwrites,
past the end it extends the array, reading the skipped holes as
`undefined` (`none`). -/
def jsArrayWrite (ws : List (Option ModifiersOSD)) (i : Nat) (v : Option ModifiersOSD) :
    List (Option ModifiersOSD) :=
  if i < ws.length then ws.set i v
  else ws ++ List.replicate (i - ws.length) none ++ [v]

/-- JavaScript `a.length = n`: truncates, or extends with holes. -/
def jsSetLength (ws : List (Option ModifiersOSD)) (n : Nat) : List (Option ModifiersOSD) :=
  if n ≤ ws.length then ws.take n else ws ++ List.replicate (n - ws.length) none

/-- The first loop of `_onMonitorsChanged`: for `i` from `0` to
`monitorCount - 1`, if `this._osdWindows[i]` is falsy (`null` or a hole),
store `new ModifiersOSD(i)` there.  Also returns, in order, the OSD
instances the loop constructed. -/
def createOsdLoop (ws : List (Option ModifiersOSD)) (count : Nat) :
    List (Option ModifiersOSD) × List ModifiersOSD :=
  (List.range count).foldl
    (fun st i =>
      if st.1.getD i none = none then
        (jsArrayWrite st.1 i (some { monitorIndex := i }), st.2 ++ [{ monitorIndex := i }])
      else st)
    (ws, [])

/-- The second loop of `_onMonitorsChanged`, iterating the given index
list (in the source: `monitorCount` up to `this._osdWindows.length - 1`):
a non-null entry is destroyed and overwritten with `null`.  Also returns,
in order, the OSD instances the loop destroyed. -/
def destroyOsdLoop (ws : List (Option ModifiersOSD)) (idxs : List Nat) :
    List (Option ModifiersOSD) × List ModifiersOSD :=
  idxs.foldl
    (fun st i =>
      match st.1.getD i none with
      | some o => (st.1.set i none, st.2 ++ [o])
      | none => st)
    (ws, [])

/-- `ModifiersOSDManager._onMonitorsChanged()` on the window array, given
the current monitor count: create missing windows below the count, destroy
windows at or above the count, then set the array length to the count.
Returns the new array, the created instances and the destroyed
instances. -/
def onMonitorsChanged (ws : List (Option ModifiersOSD)) (monitorCount : Nat) :
    List (Option ModifiersOSD) × List ModifiersOSD × List ModifiersOSD :=
  let c := createOsdLoop ws monitorCount
  let d := destroyOsdLoop c.1 (List.range' monitorCount (c.1.length - monitorCount))
  (jsSetLength d.1 monitorCount, c.2, d.2)

/-- `EntryManager.getEntryText(key)` of `prefs.js`: the entry's text, or
`''` when no entry is registered for the key.  `entries` maps a key to the
text of its registered entry, `none` when absent. -/
def getEntryText (entries : String → Option String) (key : String) : String :=
  match entries key with
  | some text => text
  | none => ""

/-- The `SimpleManager` of `prefs.js`: the group's setting keys, the
default values it was constructed with (in `prefs.js`, the hardcoded
symbol presets), and the settings manager's `currentSymbols` object
(`none` models a missing property, read as `undefined`). -/
structure SimpleManager where
  keys : List String
  defaultValues : List String
  currentSymbols : String → Option String

/-- `SimpleManager.isCurrentEqualToDefault(entryManager)`:
`keys.every((key, i) => entryManager.getEntryText(key) === this.defaultValues[i])`.
Strict equality with `undefined` (an index past the defaults) is false. -/
def SimpleManager.isCurrentEqualToDefault (m : SimpleManager)
    (entries : String → Option String) : Bool :=
  m.keys.enum.all fun p => decide (some (getEntryText entries p.2) = m.defaultValues[p.1]?)

/-- `SimpleManager.isCurrentEqualToSaved(entryManager)`:
`keys.every(key => entryManager.getEntryText(key) === this.settingsManager.currentSymbols[key])`. -/
def SimpleManager.isCurrentEqualToSaved (m : SimpleManager)
    (entries : String → Option String) : Bool :=
  m.keys.all fun key => decide (some (getEntryText entries key) = m.currentSymbols key)

/-- `GroupBuilder._updateButtonStates(...)`: the resulting sensitivity pair
`(resetButton.sensitive, saveButton.sensitive) = (!isDefault, !isSaved)`. -/
def updateButtonStates (m : SimpleManager) (entries : String → Option String) : Bool × Bool :=
  (!(m.isCurrentEqualToDefault entries), !(m.isCurrentEqualToSaved entries))

/-- C2: after a call to `updateState`, `getModifierChangeInfo mask` is
non-null exactly when `previousState` is non-null and the masked bit
differs between the previous and the current state; a returned record
carries the old and new activity of the bit, and `hasStateChanged` is true
exactly when previous and current state differ. -/
theorem claim2_tracker_edge_detection (t : ModifierStateTracker) (n mask : Nat) :
    (((t.updateState n).getModifierChangeInfo mask).isSome = true ↔
      ((t.updateState n).previousState ≠ none ∧
        ((t.currentState &&& mask != 0) ≠ (n &&& mask != 0)))) ∧
    (∀ c, (t.updateState n).getModifierChangeInfo mask = some c →
      c.wasActive = (t.currentState &&& mask != 0) ∧ c.isActive = (n &&& mask != 0)) ∧
    ((t.updateState n).hasStateChanged = true ↔ t.currentState ≠ n) := by
  unfold ModifierStateTracker.updateState ModifierStateTracker.getModifierChangeInfo
    ModifierStateTracker.hasStateChanged
  by_cases h : (t.currentState &&& mask != 0) = (n &&& mask != 0)
  · constructor
    · simp [h]
    · constructor
      · simp [h]
      · simp [bne_iff_ne]
  · constructor
    · simp [h]
    · constructor
      · intro c hc
        simp [h] at hc
        simp [← hc]
      · simp [bne_iff_ne]

/-- Closed instance of C2: toggling Caps Lock (mask 2) from state 0 to
state 2 is detected. -/
theorem claim2_tracker_edge_detection_witness :
    ((({ currentState := 0, previousState := none } : ModifierStateTracker).updateState
        2).getModifierChangeInfo 2).isSome = true ∧
      (({ currentState := 0, previousState := none } : ModifierStateTracker).updateState
        2).hasStateChanged = true := by
  have h := claim2_tracker_edge_detection
    { currentState := 0, previousState := none } 2 2
  exact ⟨h.1.mpr (by decide), (h.2.2).mpr (by decide)⟩

/-- C4: a poll whose newly read bitmask equals the bitmask recorded by the
previous poll renders nothing: the panel text is left unchanged, no OSD is
shown, and only the tracker state advances. -/
theorem claim4_no_change_no_render (outcome : OsdShowOutcome)
    (symbols : List (Nat × String)) (panelText : String) (t : ModifierStateTracker) :
    onUpdate outcome symbols panelText t t.currentState =
      Except.ok { stateTracker := t.updateState t.currentState, panelText := panelText,
                  osdShown := [], logs := [], ret := SOURCE_CONTINUE } := by
  simp [onUpdate, ModifierStateTracker.hasStateChanged, ModifierStateTracker.updateState]

/-- `_showNotification` never propagates an exception: whatever the host
`show` call does, it returns normally with the attempted event. -/
lemma showNotification_ok (outcome : OsdShowOutcome) (title message : String) :
    ∃ logs, showNotification outcome title message =
      Except.ok ([{ title := title, status := message }], logs) := by
  unfold showNotification
  cases outcome { title := title, status := message } with
  | ok u => exact ⟨[], rfl⟩
  | error e => exact ⟨[LOG_TAG ++ " Error showing OSD notification: " ++ e], rfl⟩

/-- One lock-key block of `_handleModifierNotifications` emits exactly the
OSD the spec describes for that lock key. -/
lemma notifyIfChanged_spec (outcome : OsdShowOutcome) (prev cur mask : Nat) (name : String) :
    ∃ logs, notifyIfChanged outcome { currentState := cur, previousState := some prev }
        mask name = Except.ok (specLockOsd prev cur mask name, logs) := by
  unfold notifyIfChanged ModifierStateTracker.getModifierChangeInfo specLockOsd
  by_cases h : (prev &&& mask != 0 : Bool) = (cur &&& mask != 0 : Bool)
  · exact ⟨[], by simp [h]⟩
  · obtain ⟨logs, hs⟩ :=
      showNotification_ok outcome (if (cur &&& mask != 0 : Bool) then "On" else "Off") name
    refine ⟨logs, ?_⟩
    have hb : ((prev &&& mask != 0 : Bool) != (cur &&& mask != 0 : Bool)) = true :=
      bne_iff_ne.mpr h
    simp [hb]
    simpa using hs

/-- `_handleModifierNotifications` with a numeric previous state emits
exactly the Caps, Num and Scroll OSDs the spec describes, in that order. -/
lemma handleModifierNotifications_spec (outcome : OsdShowOutcome) (prev cur : Nat) :
    ∃ logs, handleModifierNotifications outcome
        { currentState := cur, previousState := some prev } =
      Except.ok (specLockOsds prev cur, logs) := by
  obtain ⟨l1, h1⟩ := notifyIfChanged_spec outcome prev cur MODIFIER_MASKS.LOCK "Caps"
  obtain ⟨l2, h2⟩ := notifyIfChanged_spec outcome prev cur MODIFIER_MASKS.MOD2 "Num"
  obtain ⟨l3, h3⟩ := notifyIfChanged_spec outcome prev cur MODIFIER_MASKS.MOD3 "Scroll"
  refine ⟨l1 ++ l2 ++ l3, ?_⟩
  unfold handleModifierNotifications
  simp [h1, h2, h3, specLockOsds]

/-- The spec-side OSD list is empty when nothing changed. -/
lemma specLockOsds_self (s : Nat) : specLockOsds s s = [] := by
  simp [specLockOsds, specLockOsd]

/-- `_onUpdate` always returns normally with `SOURCE_CONTINUE`, showing
exactly the spec's lock-key OSDs for the poll. -/
lemma onUpdate_ok (outcome : OsdShowOutcome) (symbols : List (Nat × String))
    (panelText : String) (t : ModifierStateTracker) (n : Nat) :
    ∃ r, onUpdate outcome symbols panelText t n = Except.ok r ∧
      r.osdShown = specLockOsds t.currentState n ∧ r.ret = SOURCE_CONTINUE := by
  by_cases hn : n = t.currentState
  · subst hn
    refine ⟨{ stateTracker := t.updateState t.currentState, panelText := panelText,
              osdShown := [], logs := [], ret := SOURCE_CONTINUE }, ?_, ?_, rfl⟩
    · simp [onUpdate, ModifierStateTracker.hasStateChanged, ModifierStateTracker.updateState]
    · simp [specLockOsds_self]
  · obtain ⟨logs, hh⟩ := handleModifierNotifications_spec outcome t.currentState n
    have hh2 : handleModifierNotifications outcome (t.updateState n) =
        Except.ok (specLockOsds t.currentState n, logs) := hh
    have hch : (t.updateState n).hasStateChanged = true := by
      simp [ModifierStateTracker.hasStateChanged, ModifierStateTracker.updateState, Ne.symm hn]
    refine ⟨{ stateTracker := t.updateState n,
              panelText := updatePanelIndicator symbols (t.updateState n),
              osdShown := specLockOsds t.currentState n, logs := logs,
              ret := SOURCE_CONTINUE }, ?_, rfl, rfl⟩
    unfold onUpdate
    simp only [hch, Bool.not_true, Bool.false_eq_true, if_false, hh2]

/-- C1: every poll cycle shows one OSD per toggled lock bit — Caps
(`LOCK`), Num (`MOD2`), Scroll (`MOD3`) — between the previously recorded
bitmask and the newly polled one, titled `On`/`Off` by the new bit value
and with status text `Caps`/`Num`/`Scroll`, and shows no OSD for any other
modifier bit. -/
theorem claim1_lock_osd_per_poll (outcome : OsdShowOutcome) (symbols : List (Nat × String))
    (panelText : String) (t : ModifierStateTracker) (n : Nat) :
    ∃ r, onUpdate outcome symbols panelText t n = Except.ok r ∧
      r.osdShown = specLockOsds t.currentState n := by
  obtain ⟨r, h1, h2, _⟩ := onUpdate_ok outcome symbols panelText t n
  exact ⟨r, h1, h2⟩

/-- Accumulator: in a `foldl` that conditionally pushes, the initial list
is a prefix and the pushed elements are the filtered, mapped ones. -/
lemma foldl_push_filter {α β : Type} (c : α → Bool) (f : α → β) :
    ∀ (l : List α) (init : List β),
      l.foldl (fun acc p => if c p then acc ++ [f p] else acc) init =
        init ++ (l.filter c).map f := by
  intro l
  induction l with
  | nil => intro init; simp
  | cons a l ih =>
    intro init
    by_cases h : c a
    · simp [h, List.filter_cons, ih]
    · simp [h, List.filter_cons, ih]

/-- `_updatePanelIndicator` computes exactly the spec's panel text. -/
lemma updatePanelIndicator_eq (symbols : List (Nat × String)) (t : ModifierStateTracker) :
    updatePanelIndicator symbols t = specPanelText symbols t.currentState := by
  unfold updatePanelIndicator specPanelText
  simp only [ModifierStateTracker.isModifierActive]
  rw [foldl_push_filter (fun p => t.currentState &&& p.1 != 0) Prod.snd]
  simp

/-- C3: after a render the panel text is the symbols of exactly the active
entries of the loaded mapping, joined with single spaces in mapping order,
and in particular empty when no modifier of the mapping is active. -/
theorem claim3_panel_text (t : ModifierStateTracker) (m : SettingsManager)
    (getString : String → String) (_hset : m.settings = some getString) :
    updatePanelIndicator (m.loadSettings).modifiers t =
      specPanelText (m.loadSettings).modifiers t.currentState ∧
    ((m.loadSettings).modifiers.all (fun p => t.currentState &&& p.1 == 0) = true →
      updatePanelIndicator (m.loadSettings).modifiers t = "") := by
  constructor
  · exact updatePanelIndicator_eq _ t
  · intro hall
    rw [updatePanelIndicator_eq]
    unfold specPanelText
    have hfil : (m.loadSettings).modifiers.filter
        (fun p => t.currentState &&& p.1 != 0) = [] := by
      rw [List.filter_eq_nil_iff]
      intro p hp
      have hz := List.all_eq_true.mp hall p hp
      simp only [beq_iff_eq] at hz
      simp [hz]
    rw [hfil]
    rfl

/-- Closed instance of C3: with all eight symbols `"X"` and no modifier
active, the panel text is empty. -/
theorem claim3_panel_text_witness :
    updatePanelIndicator (({ settings := some (fun _ => "X"), modifiers := [] } :
        SettingsManager).loadSettings).modifiers
      { currentState := 0, previousState := none } = "" := by
  have h := claim3_panel_text { currentState := 0, previousState := none }
    { settings := some (fun _ => "X"), modifiers := [] } (fun _ => "X") rfl
  exact h.2 (by decide)

/-- C5: `loadSettings` with a live settings object always produces exactly
the eight fixed masks, in the fixed order, whatever strings are stored. -/
theorem claim5_fixed_mapping (m : SettingsManager) (getString : String → String)
    (hset : m.settings = some getString) :
    (m.loadSettings).modifiers.length = 8 ∧
    (m.loadSettings).modifiers.map Prod.fst =
      [ MODIFIER_MASKS.SHIFT, MODIFIER_MASKS.LOCK, MODIFIER_MASKS.CONTROL,
        MODIFIER_MASKS.MOD1, MODIFIER_MASKS.MOD2, MODIFIER_MASKS.MOD3,
        MODIFIER_MASKS.MOD4, MODIFIER_MASKS.MOD5] := by
  unfold SettingsManager.loadSettings
  rw [hset]
  simp

/-- Closed instance of C5 at a concrete settings store. -/
theorem claim5_fixed_mapping_witness :
    (({ settings := some (fun key => key), modifiers := [] } :
        SettingsManager).loadSettings).modifiers.length = 8 := by
  have h := claim5_fixed_mapping
    { settings := some (fun key => key), modifiers := [] } (fun key => key) rfl
  exact h.1

/-- C9: nulling `previousState` in the settings-changed handler forces no
re-render: `updateState` overwrites `previousState` with the old current
state on the next poll (so the `previousState === null` guard of
`_handleModifierNotifications` is never taken during `_onUpdate`), and a
poll returning the old bitmask leaves the panel text untouched and shows
no OSD. -/
theorem claim9_nulled_previous_no_render (outcome : OsdShowOutcome)
    (symbols : List (Nat × String)) (panelText : String) (t : ModifierStateTracker)
    (_hnull : t.previousState = none) :
    (∀ k, (t.updateState k).previousState = some t.currentState) ∧
    onUpdate outcome symbols panelText t t.currentState =
      Except.ok { stateTracker := t.updateState t.currentState, panelText := panelText,
                  osdShown := [], logs := [], ret := SOURCE_CONTINUE } := by
  constructor
  · intro k; rfl
  · simp [onUpdate, ModifierStateTracker.hasStateChanged, ModifierStateTracker.updateState]

/-- Closed instance of C9: after a settings change with state `5`, polling
`5` again leaves the panel text `"old"` and shows no OSD. -/
theorem claim9_nulled_previous_no_render_witness :
    onUpdate (fun _ => Except.ok ()) [] "old"
        { currentState := 5, previousState := none } 5 =
      Except.ok { stateTracker := { currentState := 5, previousState := some 5 },
                  panelText := "old", osdShown := [], logs := [],
                  ret := SOURCE_CONTINUE } := by
  have h := claim9_nulled_previous_no_render (fun _ => Except.ok ()) [] "old"
    { currentState := 5, previousState := none } rfl
  exact h.2

/-- C10: `_showNotification` returns normally whatever the OSD `show` call
does, logging a thrown exception, and `_onUpdate` returns
`GLib.SOURCE_CONTINUE` on every invocation, so a notification failure
never cancels the polling timer. -/
theorem claim10_update_timer_survives (outcome : OsdShowOutcome)
    (symbols : List (Nat × String)) (panelText : String) (t : ModifierStateTracker)
    (n : Nat) (title message : String) :
    (∃ out, showNotification outcome title message = Except.ok out) ∧
    (∀ e, outcome { title := title, status := message } = Except.error e →
      showNotification outcome title message =
        Except.ok ([{ title := title, status := message }],
          [LOG_TAG ++ " Error showing OSD notification: " ++ e])) ∧
    (∃ r, onUpdate outcome symbols panelText t n = Except.ok r ∧
      r.ret = SOURCE_CONTINUE) := by
  refine ⟨?_, ?_, ?_⟩
  · obtain ⟨logs, hs⟩ := showNotification_ok outcome title message
    exact ⟨_, hs⟩
  · intro e he
    unfold showNotification
    rw [he]
  · obtain ⟨r, h1, _, h3⟩ := onUpdate_ok outcome symbols panelText t n
    exact ⟨r, h1, h3⟩

/-- Closed instance of C10: a `show` call that throws `"boom"` is caught
and logged. -/
theorem claim10_update_timer_survives_witness :
    showNotification (fun _ => Except.error "boom") "On" "Caps" =
      Except.ok ([{ title := "On", status := "Caps" }],
        [LOG_TAG ++ " Error showing OSD notification: " ++ "boom"]) := by
  have h := claim10_update_timer_survives (fun _ => Except.error "boom") [] ""
    { currentState := 0, previousState := none } 0 "On" "Caps"
  exact h.2.1 "boom" rfl

/-- C8: after every entry change, the Reset-to-defaults button is
sensitive exactly when some entry's text differs from the default value
for its key, and the Save button is sensitive exactly when some entry's
text differs from the currently stored symbol value for its key; both are
insensitive when all entries match the respective reference values. -/
theorem claim8_button_sensitivity (m : SimpleManager) (entries : String → Option String) :
    ((updateButtonStates m entries).1 = true ↔
      ∃ (i : Nat) (key : String), m.keys[i]? = some key ∧
        some (getEntryText entries key) ≠ m.defaultValues[i]?) ∧
    ((updateButtonStates m entries).2 = true ↔
      ∃ key ∈ m.keys, some (getEntryText entries key) ≠ m.currentSymbols key) := by
  unfold updateButtonStates SimpleManager.isCurrentEqualToDefault
    SimpleManager.isCurrentEqualToSaved
  constructor
  · simp only [Bool.not_eq_true', List.all_eq_false, List.mem_enum_iff_getElem?,
      decide_eq_true_eq]
    constructor
    · rintro ⟨p, hp, hne⟩
      exact ⟨p.1, p.2, hp, hne⟩
    · rintro ⟨i, key, hik, hne⟩
      exact ⟨(i, key), hik, hne⟩
  · simp only [Bool.not_eq_true', List.all_eq_false, decide_eq_true_eq]

/-- Closed instance of C8: one matching entry and one deviating default
make Reset sensitive and Save insensitive. -/
theorem claim8_button_sensitivity_witness :
    (updateButtonStates
        { keys := ["caps-symbol"], defaultValues := ["Caps"],
          currentSymbols := fun _ => some "C" }
        (fun _ => some "C")).1 = true ∧
      (updateButtonStates
        { keys := ["caps-symbol"], defaultValues := ["Caps"],
          currentSymbols := fun _ => some "C" }
        (fun _ => some "C")).2 = false := by
  have h := claim8_button_sensitivity
    { keys := ["caps-symbol"], defaultValues := ["Caps"],
      currentSymbols := fun _ => some "C" }
    (fun _ => some "C")
  constructor
  · exact h.1.mpr ⟨0, "caps-symbol", by decide, by decide⟩
  · have h2 := h.2
    by_contra hb
    have : (updateButtonStates
        { keys := ["caps-symbol"], defaultValues := ["Caps"],
          currentSymbols := fun _ => some "C" }
        (fun _ => some "C")).2 = true := by
      revert hb
      cases (updateButtonStates
        { keys := ["caps-symbol"], defaultValues := ["Caps"],
          currentSymbols := fun _ => some "C" }
        (fun _ => some "C")).2
      · intro hb; exact absurd rfl hb
      · intro hb; rfl
    obtain ⟨key, hk, hne⟩ := h2.mp this
    simp only [List.mem_singleton] at hk
    subst hk
    exact hne (by decide)

/-- Length after a JavaScript array write. -/
lemma jsArrayWrite_length (ws : List (Option ModifiersOSD)) (i : Nat) (v : Option ModifiersOSD) :
    (jsArrayWrite ws i v).length = max ws.length (i + 1) := by
  unfold jsArrayWrite
  split
  · rw [List.length_set]; omega
  · simp only [List.length_append, List.length_replicate, List.length_cons, List.length_nil]
    omega

/-- A JavaScript array write stores the value at its index. -/
lemma jsArrayWrite_getD_self (ws : List (Option ModifiersOSD)) (i : Nat)
    (v : Option ModifiersOSD) : (jsArrayWrite ws i v).getD i none = v := by
  unfold jsArrayWrite
  split
  · rename_i h
    rw [List.getD_eq_getElem?_getD, List.getElem?_set_self h]
    rfl
  · rename_i h
    have hlen : (ws ++ List.replicate (i - ws.length) none).length = i := by
      simp only [List.length_append, List.length_replicate]
      omega
    rw [List.getD_eq_getElem?_getD,
      show ws ++ List.replicate (i - ws.length) none ++ [v] =
        (ws ++ List.replicate (i - ws.length) none) ++ [v] from rfl,
      List.getElem?_append_right (le_of_eq hlen), hlen]
    simp

/-- A JavaScript array write at an index at most the length leaves every
other position unchanged. -/
lemma jsArrayWrite_getD_ne (ws : List (Option ModifiersOSD)) (i j : Nat)
    (v : Option ModifiersOSD) (hij : j ≠ i) (hi : i ≤ ws.length) :
    (jsArrayWrite ws i v).getD j none = ws.getD j none := by
  unfold jsArrayWrite
  split
  · rw [List.getD_eq_getElem?_getD, List.getElem?_set_ne (Ne.symm hij),
      ← List.getD_eq_getElem?_getD]
  · rename_i h
    have hieq : i = ws.length := by omega
    have hrep : List.replicate (i - ws.length) (none : Option ModifiersOSD) = [] := by
      simp [hieq]
    rw [hrep, List.append_nil]
    by_cases hj : j < ws.length
    · rw [List.getD_eq_getElem?_getD, List.getElem?_append_left hj,
        ← List.getD_eq_getElem?_getD]
    · have hj2 : ws.length ≤ j := by omega
      rw [List.getD_eq_getElem?_getD, List.getElem?_append_right hj2]
      have hj3 : 1 ≤ j - ws.length := by omega
      rw [List.getD_eq_getElem?_getD]
      rw [List.getElem?_eq_none (by simpa using hj3), List.getElem?_eq_none (by simpa using hj2)]

/-- Unrolling the last iteration of the create loop. -/
lemma createOsdLoop_succ (ws : List (Option ModifiersOSD)) (n : Nat) :
    createOsdLoop ws (n + 1) =
      if (createOsdLoop ws n).1.getD n none = none then
        (jsArrayWrite (createOsdLoop ws n).1 n (some { monitorIndex := n }),
          (createOsdLoop ws n).2 ++ [{ monitorIndex := n }])
      else createOsdLoop ws n := by
  unfold createOsdLoop
  rw [List.range_succ, List.foldl_append]
  rfl

/-- Full characterization of the create loop of `_onMonitorsChanged`:
length, final contents, and the created instances. -/
lemma createOsdLoop_spec (ws : List (Option ModifiersOSD)) :
    ∀ n, (createOsdLoop ws n).1.length = max ws.length n ∧
      (∀ j, (createOsdLoop ws n).1.getD j none =
        if j < n then
          (match ws.getD j none with
           | none => some { monitorIndex := j }
           | some o => some o)
        else ws.getD j none) ∧
      (createOsdLoop ws n).2 =
        ((List.range n).filter (fun j => ws.getD j none = none)).map
          (fun j => { monitorIndex := j }) := by
  intro n
  induction n with
  | zero =>
    refine ⟨?_, ?_, ?_⟩
    · simp [createOsdLoop]
    · intro j
      simp [createOsdLoop]
    · simp [createOsdLoop]
  | succ n ih =>
    obtain ⟨ihlen, ihget, ihcr⟩ := ih
    rw [createOsdLoop_succ]
    have hatn : (createOsdLoop ws n).1.getD n none = ws.getD n none := by
      rw [ihget n]
      simp
    by_cases hn : ws.getD n none = none
    · rw [hatn]
      simp only [hn, if_true]
      refine ⟨?_, ?_, ?_⟩
      · rw [jsArrayWrite_length, ihlen]
        omega
      · intro j
        by_cases hj : j = n
        · subst hj
          rw [jsArrayWrite_getD_self]
          simp [hn, Nat.lt_succ_self, -List.getD_eq_getElem?_getD]
        · rw [jsArrayWrite_getD_ne _ _ _ _ hj (by rw [ihlen]; omega), ihget j]
          by_cases hjn : j < n
          · simp [hjn, Nat.lt_succ_of_lt hjn]
          · have hjn2 : ¬ j < n + 1 := by omega
            simp [hjn, hjn2]
      · rw [ihcr, List.range_succ, List.filter_append, List.map_append]
        simp [hn, -List.getD_eq_getElem?_getD]
    · rw [hatn]
      simp only [hn, if_false]
      obtain ⟨o, ho⟩ := Option.ne_none_iff_exists'.mp hn
      have hnlt : n < ws.length := by
        by_contra hge
        have : ws.getD n none = none := by
          rw [List.getD_eq_getElem?_getD, List.getElem?_eq_none (by omega)]
          rfl
        exact hn this
      refine ⟨?_, ?_, ?_⟩
      · rw [ihlen]
        omega
      · intro j
        rw [ihget j]
        by_cases hj : j = n
        · subst hj
          simp [ho, Nat.lt_succ_self, -List.getD_eq_getElem?_getD]
        · by_cases hjn : j < n
          · simp [hjn, Nat.lt_succ_of_lt hjn]
          · have hjn2 : ¬ j < n + 1 := by omega
            simp [hjn, hjn2]
      · rw [ihcr, List.range_succ, List.filter_append, List.map_append]
        simp [hn, -List.getD_eq_getElem?_getD]

/-- The destroy loop with a non-empty destroyed accumulator just prefixes
the accumulator. -/
lemma destroyOsdLoop_acc (idxs : List Nat) :
    ∀ (ws : List (Option ModifiersOSD)) (d : List ModifiersOSD),
      idxs.foldl
        (fun st i =>
          match st.1.getD i none with
          | some o => (st.1.set i none, st.2 ++ [o])
          | none => st) (ws, d) =
      ((destroyOsdLoop ws idxs).1, d ++ (destroyOsdLoop ws idxs).2) := by
  induction idxs with
  | nil =>
    intro ws d
    simp [destroyOsdLoop]
  | cons i rest ih =>
    intro ws d
    rw [show destroyOsdLoop ws (i :: rest) =
      (i :: rest).foldl
        (fun st k =>
          match st.1.getD k none with
          | some o => (st.1.set k none, st.2 ++ [o])
          | none => st) (ws, []) from rfl]
    rw [List.foldl_cons, List.foldl_cons]
    cases h : ws.getD i none with
    | some o =>
      simp only [h]
      rw [ih (ws.set i none) (d ++ [o]), ih (ws.set i none) ([] ++ [o])]
      simp
    | none =>
      simp only [h]
      rw [ih ws d, ih ws []]
      simp

/-- Full characterization of the destroy loop of `_onMonitorsChanged` over
a duplicate-free index list: length, final contents, and the destroyed
instances. -/
lemma destroyOsdLoop_spec :
    ∀ (idxs : List Nat), idxs.Nodup →
      ∀ ws : List (Option ModifiersOSD),
        (destroyOsdLoop ws idxs).1.length = ws.length ∧
        (∀ j, (destroyOsdLoop ws idxs).1.getD j none =
          if j ∈ idxs then none else ws.getD j none) ∧
        (destroyOsdLoop ws idxs).2 = idxs.filterMap (fun i => ws.getD i none) := by
  intro idxs
  induction idxs with
  | nil =>
    intro _ ws
    simp [destroyOsdLoop]
  | cons i rest ih =>
    intro hnd ws
    have hnotmem : i ∉ rest := (List.nodup_cons.mp hnd).1
    have hndr : rest.Nodup := (List.nodup_cons.mp hnd).2
    have hfold : destroyOsdLoop ws (i :: rest) =
        (i :: rest).foldl
          (fun st k =>
            match st.1.getD k none with
            | some o => (st.1.set k none, st.2 ++ [o])
            | none => st) (ws, []) := rfl
    cases h : ws.getD i none with
    | some o =>
      have hlt : i < ws.length := by
        by_contra hge
        have hnone : ws.getD i none = none := by
          rw [List.getD_eq_getElem?_getD, List.getElem?_eq_none (by omega)]
          rfl
        rw [hnone] at h
        exact Option.noConfusion h
      have hunf : destroyOsdLoop ws (i :: rest) =
          ((destroyOsdLoop (ws.set i none) rest).1,
            [o] ++ (destroyOsdLoop (ws.set i none) rest).2) := by
        rw [hfold, List.foldl_cons]
        simp only [h]
        rw [destroyOsdLoop_acc rest (ws.set i none) ([] ++ [o])]
        simp
      obtain ⟨rlen, rget, rdes⟩ := ih hndr (ws.set i none)
      rw [hunf]
      dsimp only
      refine ⟨?_, ?_, ?_⟩
      · rw [rlen, List.length_set]
      · intro j
        rw [rget j]
        by_cases hj : j = i
        · subst hj
          rw [if_neg hnotmem, if_pos (List.mem_cons_self j rest)]
          rw [List.getD_eq_getElem?_getD, List.getElem?_set_self hlt]
          rfl
        · by_cases hjr : j ∈ rest
          · rw [if_pos hjr, if_pos (List.mem_cons_of_mem i hjr)]
          · have hjc : j ∉ i :: rest := by
              simp [hj, hjr]
            rw [if_neg hjr, if_neg hjc]
            rw [List.getD_eq_getElem?_getD, List.getElem?_set_ne (fun he => hj he.symm),
              ← List.getD_eq_getElem?_getD]
      · rw [rdes, List.filterMap_cons]
        simp only [h, List.singleton_append]
        congr 1
        apply List.filterMap_congr
        intro k hk
        rw [List.getD_eq_getElem?_getD,
          List.getElem?_set_ne (fun he => hnotmem (by rw [he]; exact hk)),
          ← List.getD_eq_getElem?_getD]
    | none =>
      have hunf : destroyOsdLoop ws (i :: rest) = destroyOsdLoop ws rest := by
        rw [hfold, List.foldl_cons]
        simp only [h]
        rfl
      obtain ⟨rlen, rget, rdes⟩ := ih hndr ws
      rw [hunf]
      refine ⟨rlen, ?_, ?_⟩
      · intro j
        rw [rget j]
        by_cases hj : j = i
        · subst hj
          rw [if_neg hnotmem, if_pos (List.mem_cons_self j rest), h]
        · by_cases hjr : j ∈ rest
          · rw [if_pos hjr, if_pos (List.mem_cons_of_mem i hjr)]
          · have hjc : j ∉ i :: rest := by
              simp [hj, hjr]
            rw [if_neg hjr, if_neg hjc]
      · rw [rdes, List.filterMap_cons]
        simp only [h]

/-- Reading the positions from `c` up to the end of the array collects
exactly the dropped suffix. -/
lemma range'_filterMap_getD (ws : List (Option ModifiersOSD)) :
    ∀ (k c : Nat), c + k = ws.length →
      (List.range' c k).filterMap (fun i => ws.getD i none) =
        (ws.drop c).filterMap id := by
  intro k
  induction k with
  | zero =>
    intro c hc
    have hd : ws.drop c = [] := List.drop_eq_nil_of_le (by omega)
    simp [hd]
  | succ k ih =>
    intro c hc
    have hclt : c < ws.length := by omega
    have hrange : List.range' c (k + 1) = c :: List.range' (c + 1) k := rfl
    rw [hrange, List.filterMap_cons, List.drop_eq_getElem_cons hclt, List.filterMap_cons]
    have hgd : ws.getD c none = ws[c] := by
      rw [List.getD_eq_getElem?_getD, List.getElem?_eq_getElem hclt]
      rfl
    rw [hgd, ih (c + 1) (by omega)]
    rfl

/-- The window array `_onMonitorsChanged` leaves behind, as a function of
the old one. -/
lemma onMonitorsChanged_getD (ws : List (Option ModifiersOSD)) (count : Nat)
    (i : Nat) (hi : i < count) :
    (onMonitorsChanged ws count).1.getD i none =
      (match ws.getD i none with
       | none => some { monitorIndex := i }
       | some o => some o) := by
  obtain ⟨clen, cget, -⟩ := createOsdLoop_spec ws count
  obtain ⟨dlen, dget, -⟩ := destroyOsdLoop_spec
    (List.range' count ((createOsdLoop ws count).1.length - count))
    (List.nodup_range' _ _) (createOsdLoop ws count).1
  have hle : count ≤ (createOsdLoop ws count).1.length := by rw [clen]; omega
  have hfinal : (onMonitorsChanged ws count).1 =
      (destroyOsdLoop (createOsdLoop ws count).1
        (List.range' count ((createOsdLoop ws count).1.length - count))).1.take count := by
    unfold onMonitorsChanged jsSetLength
    dsimp only
    rw [if_pos (by rw [dlen]; exact hle)]
  rw [hfinal]
  have htake : ((destroyOsdLoop (createOsdLoop ws count).1
      (List.range' count ((createOsdLoop ws count).1.length - count))).1.take count).getD
        i none =
      (destroyOsdLoop (createOsdLoop ws count).1
        (List.range' count ((createOsdLoop ws count).1.length - count))).1.getD i none := by
    rw [List.getD_eq_getElem?_getD, List.getD_eq_getElem?_getD,
      List.getElem?_take_of_lt hi]
  rw [htake, dget i, if_neg (by
    intro hmem
    rw [List.mem_range'_1] at hmem
    omega)]
  rw [cget i, if_pos hi]

/-- C6: after construction and after every monitors-changed event, the OSD
window array has length equal to the current monitor count and an OSD
instance in every slot below the count, whatever array the previous
events left behind. -/
theorem claim6_window_array_invariant (ws : List (Option ModifiersOSD)) (count : Nat) :
    (onMonitorsChanged ws count).1.length = count ∧
    (onMonitorsChanged ws count).1.all Option.isSome = true := by
  obtain ⟨clen, cget, -⟩ := createOsdLoop_spec ws count
  obtain ⟨dlen, dget, -⟩ := destroyOsdLoop_spec
    (List.range' count ((createOsdLoop ws count).1.length - count))
    (List.nodup_range' _ _) (createOsdLoop ws count).1
  have hle : count ≤ (createOsdLoop ws count).1.length := by rw [clen]; omega
  have hfinal : (onMonitorsChanged ws count).1 =
      (destroyOsdLoop (createOsdLoop ws count).1
        (List.range' count ((createOsdLoop ws count).1.length - count))).1.take count := by
    unfold onMonitorsChanged jsSetLength
    dsimp only
    rw [if_pos (by rw [dlen]; exact hle)]
  have hlen : (onMonitorsChanged ws count).1.length = count := by
    rw [hfinal, List.length_take, dlen]
    omega
  refine ⟨hlen, ?_⟩
  rw [List.all_eq_true]
  intro x hx
  obtain ⟨j, hj, hxj⟩ := List.mem_iff_getElem.mp hx
  have hjc : j < count := by
    rw [hlen] at hj
    exact hj
  have hx2 : (onMonitorsChanged ws count).1.getD j none = x := by
    rw [List.getD_eq_getElem?_getD, List.getElem?_eq_getElem hj, hxj]
    rfl
  rw [onMonitorsChanged_getD ws count j hjc] at hx2
  rw [Option.isSome_iff_ne_none]
  intro hxn
  subst hxn
  cases h : ws.getD j none with
  | none => rw [h] at hx2; exact Option.noConfusion hx2
  | some o => rw [h] at hx2; exact Option.noConfusion hx2

/-- C7 counterexample: a monitors-changed event that keeps the monitor
count at 1 destroys no OSD instance and creates none, so it is false that
each per-display instance is destroyed and one is recreated per display. -/
theorem claim7_counterexample :
    ¬ ((∀ o : ModifiersOSD,
          some o ∈ [some { monitorIndex := 0 }] →
            o ∈ (onMonitorsChanged [some { monitorIndex := 0 }] 1).2.2) ∧
        (∀ i, i < 1 →
          ∃ o, o ∈ (onMonitorsChanged [some { monitorIndex := 0 }] 1).2.1 ∧
            o.monitorIndex = i)) := by
  intro hcl
  have h0 := hcl.1 { monitorIndex := 0 } (List.mem_singleton.mpr rfl)
  have hemp : (onMonitorsChanged [some { monitorIndex := 0 }] 1).2.2 =
      ([] : List ModifiersOSD) := by decide
  rw [hemp] at h0
  exact List.not_mem_nil _ h0

/-- C7 (amended): on every monitors-changed event, exactly the OSD
instances stored at or beyond the new monitor count are destroyed, a new
OSD instance is created for exactly those display indices below the count
lacking one, and instances of still-present displays are retained. -/
theorem claim7_topology_change_lifecycle (ws : List (Option ModifiersOSD)) (count : Nat) :
    (onMonitorsChanged ws count).2.1 =
      ((List.range count).filter (fun i => ws.getD i none = none)).map
        (fun i => { monitorIndex := i }) ∧
    (onMonitorsChanged ws count).2.2 = (ws.drop count).filterMap id ∧
    (∀ i o, i < count → ws.getD i none = some o →
      (onMonitorsChanged ws count).1.getD i none = some o) ∧
    (∀ i, i < count → ws.getD i none = none →
      (onMonitorsChanged ws count).1.getD i none = some { monitorIndex := i }) := by
  obtain ⟨clen, cget, ccr⟩ := createOsdLoop_spec ws count
  obtain ⟨dlen, dget, ddes⟩ := destroyOsdLoop_spec
    (List.range' count ((createOsdLoop ws count).1.length - count))
    (List.nodup_range' _ _) (createOsdLoop ws count).1
  refine ⟨?_, ?_, ?_, ?_⟩
  · rw [show (onMonitorsChanged ws count).2.1 = (createOsdLoop ws count).2 from rfl]
    exact ccr
  · rw [show (onMonitorsChanged ws count).2.2 =
      (destroyOsdLoop (createOsdLoop ws count).1
        (List.range' count ((createOsdLoop ws count).1.length - count))).2 from rfl]
    rw [ddes]
    have hcong : (List.range' count ((createOsdLoop ws count).1.length - count)).filterMap
        (fun i => (createOsdLoop ws count).1.getD i none) =
        (List.range' count ((createOsdLoop ws count).1.length - count)).filterMap
          (fun i => ws.getD i none) := by
      apply List.filterMap_congr
      intro k hk
      rw [List.mem_range'_1] at hk
      rw [cget k, if_neg (by omega)]
    rw [hcong, clen]
    rcases le_or_lt count ws.length with hcase | hcase
    · have hmax : max ws.length count - count = ws.length - count := by omega
      rw [hmax]
      exact range'_filterMap_getD ws (ws.length - count) count (by omega)
    · have hmax : max ws.length count - count = 0 := by omega
      rw [hmax]
      have hd : ws.drop count = [] := List.drop_eq_nil_of_le (by omega)
      simp [hd]
  · intro i o hi ho
    rw [onMonitorsChanged_getD ws count i hi, ho]
  · intro i hi ho
    rw [onMonitorsChanged_getD ws count i hi, ho]

/-- Closed instance of the amended C7 at a two-monitor event: the existing
instance for display 0 is retained and a fresh instance is created for
display 1. -/
theorem claim7_topology_change_lifecycle_witness :
    (onMonitorsChanged [some { monitorIndex := 0 }, none] 2).1.getD 0 none =
        some { monitorIndex := 0 } ∧
      (onMonitorsChanged [some { monitorIndex := 0 }, none] 2).1.getD 1 none =
        some { monitorIndex := 1 } := by
  have h := claim7_topology_change_lifecycle [some { monitorIndex := 0 }, none] 2
  exact ⟨h.2.2.1 0 { monitorIndex := 0 } (by decide) (by decide),
    h.2.2.2 1 (by decide) (by decide)⟩

end KbdInformer
